import Mathlib

/-!
Verification development for the monasca monitoring agent.

Shallow embedding of the collection-and-aggregation runtime:
ServicesCheck scheduler (collector/checks/services_checks.py),
statsd UDP packet handling (statsd/udp.py), the Collector driver
(collector/checks/collector.py) and the Reporter flush cycle
(statsd/reporter.py).  Python dicts are embedded as association
lists with unique keys; the thread-safe result queue is a FIFO
list; a raised-and-propagating Python exception is an `Option
String` (or `Option` result) error component; monotonic time and
the process-wide live-thread count are explicit parameters.
-/

set_option autoImplicit false

namespace Monasca

/-- Association-list lookup, embedding Python `d[k]` / `d.get(k)`. -/
def alookup {κ ν : Type} [DecidableEq κ] : List (κ × ν) → κ → Option ν
  | [], _ => none
  | (k, v) :: t, k' => if k = k' then some v else alookup t k'

/-- Association-list update, embedding Python `d[k] = v` (keys stay unique). -/
def aset {κ ν : Type} [DecidableEq κ] : List (κ × ν) → κ → ν → List (κ × ν)
  | [], k', v' => [(k', v')]
  | (k, v) :: t, k', v' => if k = k' then (k', v') :: t else (k, v) :: aset t k' v'

/-- Association-list removal, embedding Python `del d[k]` on a present key. -/
def aerase {κ ν : Type} [DecidableEq κ] : List (κ × ν) → κ → List (κ × ν)
  | [], _ => []
  | (k, v) :: t, k' => if k = k' then t else (k, v) :: aerase t k'

namespace Svc

/-! ## ServicesCheck (collector/checks/services_checks.py)

Constants and the scheduler state.  The thread pool itself is an external
collaborator; its observable footprint in the scheduler is the result queue,
the in-flight bookkeeping and the (re)creation events, so the embedding keeps
a `restarts` counter (number of `restart_pool` invocations, i.e. pool
terminate-and-recreate events) and a `submissions` history (arguments of
`pool.apply_async`) as observables. -/

def DEFAULT_TIMEOUT : Int := 180
def DEFAULT_SIZE_POOL : Nat := 6
def MAX_LOOP_ITERATIONS : Nat := 1000
def MAX_ALLOWED_THREADS : Nat := 200

/-- `Status`: the `up_down` namedtuple values `'UP'` / `'DOWN'`. -/
inductive St where
  | UP
  | DOWN
  deriving DecidableEq, Repr

/-- A service-check instance configuration, after the `instance.get` defaults
of the source have been applied: `name = instance.get('name', None)`,
`window = int(instance.get('window', 1))`, `threshold =
instance.get('threshold', 1)`. -/
structure Instance where
  name : Option String
  window : Int
  threshold : Int
  deriving DecidableEq, Repr

/-- One entry of the result queue: either the sentinel tuple
`(FAILURE, FAILURE, FAILURE, FAILURE)` or a normal
`(status, msg, name, instance)` tuple. -/
inductive RItem where
  | failure
  | ok (st : St) (msg : String) (name : Option String) (inst : Instance)
  deriving DecidableEq, Repr

/-- The mutable state of a `ServicesCheck` object (plus the observable
histories: `events`—appended status-change events, recorded as the direction
of the transition—, `restarts` and `submissions`). -/
structure SState where
  statuses : List (Option String × List St)
  notified : List (Option String × St)
  nb_failures : Nat
  pool_started : Bool
  pool_size : Nat
  timeout : Int
  resultsq : List RItem
  jobs_status : List (Option String × Int)
  events : List St
  restarts : Nat
  submissions : List Instance
  deriving DecidableEq, Repr

/-- `start_pool`: creates a fresh pool, a fresh (empty) result queue and fresh
in-flight bookkeeping.  `pool_size` and `timeout` are re-read from the same
configuration, hence unchanged. -/
def startPool (s : SState) : SState :=
  { s with resultsq := [], jobs_status := [], pool_started := true }

/-- `restart_pool`: `stop_pool` followed by `start_pool`. -/
def restartPool (s : SState) : SState :=
  startPool { s with restarts := s.restarts + 1 }

/-- The effective window: `if window > 256: window = 256` (with a logged
warning) in `_process_results`. -/
def effWindow (w : Int) : Int :=
  if w > 256 then 256 else w

/-- `list.count(Status.DOWN)` on a status history. -/
def countDown : List St → Nat
  | [] => 0
  | St.DOWN :: t => countDown t + 1
  | St.UP :: t => countDown t

/-- The body of `_process_results` for one drained non-FAILURE result:
append to the per-name history, cap the window, evict the oldest entry,
count DOWNs, compare to the threshold, emit an edge-triggered event, and
`del self.jobs_status[name]`.  The `del` raises `KeyError` when the name has
no in-flight entry; the mutations made before the `del` persist, so the
updated state is returned together with the error. -/
def handleNormal (s : SState) (st : St) (name : Option String) (inst : Instance) :
    SState × Option String :=
  let hist0 := (alookup s.statuses name).getD []
  let hist1 := hist0 ++ [st]
  let window := effWindow inst.window
  let hist2 := if (hist1.length : Int) > window then hist1.tail else hist1
  let nbDown := countDown hist2
  let ncur := (alookup s.notified name).getD St.UP
  let ev : Option St :=
    if (nbDown : Int) ≥ inst.threshold then
      if ncur ≠ St.DOWN then some St.DOWN else none
    else
      if ncur ≠ St.UP then some St.UP else none
  let s' : SState :=
    { s with
      statuses := aset s.statuses name hist2
      notified := match ev with
        | some d => aset s.notified name d
        | none => s.notified
      events := match ev with
        | some d => s.events ++ [d]
        | none => s.events }
  if (alookup s.jobs_status name).isSome then
    ({ s' with jobs_status := aerase s.jobs_status name }, none)
  else
    (s', some "KeyError: jobs_status")

/-- `_process_results`: drain up to `fuel` results from the result queue
(non-blocking `get_nowait`; the queue is FIFO so the head is drained first).
A FAILURE sentinel bumps the failure counter and, once it reaches
`pool_size - 1`, resets the counter and restarts the pool (the restart
installs a fresh empty result queue, so the remaining drained-over results
are discarded with it); the `continue` then finds the fresh queue empty.
A propagating `KeyError` from the normal-result branch aborts the loop. -/
def drainLoop : Nat → SState → SState × Option String
  | 0, s => (s, none)
  | fuel + 1, s =>
    match s.resultsq with
    | [] => (s, none)
    | r :: rest =>
      let s1 := { s with resultsq := rest }
      match r with
      | RItem.failure =>
        let nf : Nat := s1.nb_failures + 1
        if (nf : Int) ≥ (s1.pool_size : Int) - 1 then
          drainLoop fuel (restartPool { s1 with nb_failures := 0 })
        else
          drainLoop fuel { s1 with nb_failures := nf }
      | RItem.ok st _msg name inst =>
        match handleNormal s1 st name inst with
        | (s2, none) => drainLoop fuel s2
        | (s2, some e) => (s2, some e)

/-- `_clean`: scan the in-flight jobs (a snapshot of `jobs_status.items()`);
every job whose age exceeds the timeout triggers a pool restart. -/
def clean (now : Int) (s : SState) : SState :=
  s.jobs_status.foldl
    (fun acc p => if now - p.2 > acc.timeout then restartPool acc else acc) s

/-- `ServicesCheck.check(instance)`: start the pool if needed; raise if the
process-wide live-thread count exceeds `MAX_ALLOWED_THREADS`; otherwise drain
results, scan for stuck jobs, and submit a job for `instance.name` unless one
is already in flight.  The returned state is the object state at the moment
the call returns or the exception propagates; `some msg` is a raised
exception. -/
def check (threads : Nat) (now : Int) (inst : Instance) (s : SState) :
    SState × Option String :=
  let s0 := if s.pool_started then s else startPool s
  if threads > MAX_ALLOWED_THREADS then
    (s0, some "Thread number exceeds maximum. Skipping this check.")
  else
    match drainLoop MAX_LOOP_ITERATIONS s0 with
    | (s1, some e) => (s1, some e)
    | (s1, none) =>
      let s2 := clean now s1
      match inst.name with
      | none => (s2, none)
      | some n =>
        if (alookup s2.jobs_status (some n)).isSome then
          (s2, none)
        else
          ({ s2 with
             jobs_status := aset s2.jobs_status (some n) now
             submissions := s2.submissions ++ [inst] }, none)

/-- The order of steps asserted by the specification for `check(instance)`:
first drain available results, then scan for stuck jobs, and only after the
drain and the stuck-scan fail the call when the live-thread count exceeds the
hard ceiling; otherwise submit.  Stated from the spec's words, to be compared
with `check` as translated from the source. -/
def checkSpecOrder (threads : Nat) (now : Int) (inst : Instance) (s : SState) :
    SState × Option String :=
  let s0 := if s.pool_started then s else startPool s
  match drainLoop MAX_LOOP_ITERATIONS s0 with
  | (s1, some e) => (s1, some e)
  | (s1, none) =>
    let s2 := clean now s1
    if threads > MAX_ALLOWED_THREADS then
      (s2, some "Thread number exceeds maximum. Skipping this check.")
    else
      match inst.name with
      | none => (s2, none)
      | some n =>
        if (alookup s2.jobs_status (some n)).isSome then
          (s2, none)
        else
          ({ s2 with
             jobs_status := aset s2.jobs_status (some n) now
             submissions := s2.submissions ++ [inst] }, none)

/-- The outcome of calling the plugin's `_check(instance)` inside `_process`:
it raises (this includes "no callback": the base class `_check` raises
`NotImplementedError`), returns a falsy value (`None`), returns a valid
2-tuple, or returns a truthy value that is not a 2-tuple (whose unpacking
raises). -/
inductive CheckOutcome where
  | raises
  | retNone
  | retPair (st : St) (msg : String)
  | retInvalid
  deriving DecidableEq, Repr

/-- `ServicesCheck._process(instance)` as executed by a pooled worker: its
observable effect on the in-flight map and the result queue.  A valid 2-tuple
is enqueued as `(status, msg, name, instance)`; a falsy return deletes the
in-flight entry and enqueues nothing (the `del` raising `KeyError` when the
entry is absent is caught by the surrounding `except Exception`, which
enqueues the FAILURE sentinel); any exception and any truthy non-2-tuple
return enqueue the FAILURE sentinel. -/
def processJob (jobs : List (Option String × Int)) (q : List RItem)
    (inst : Instance) (outcome : CheckOutcome) :
    List (Option String × Int) × List RItem :=
  match outcome with
  | CheckOutcome.raises => (jobs, q ++ [RItem.failure])
  | CheckOutcome.retNone =>
    if (alookup jobs inst.name).isSome then (aerase jobs inst.name, q)
    else (jobs, q ++ [RItem.failure])
  | CheckOutcome.retPair st msg => (jobs, q ++ [RItem.ok st msg inst.name inst])
  | CheckOutcome.retInvalid => (jobs, q ++ [RItem.failure])

/-- A scheduler state with empty maps, an idle started pool and no history:
the state right after `start_pool` on a freshly constructed check with
default pool size and timeout. -/
def initState : SState :=
  { statuses := []
    notified := []
    nb_failures := 0
    pool_started := true
    pool_size := DEFAULT_SIZE_POOL
    timeout := DEFAULT_TIMEOUT
    resultsq := []
    jobs_status := []
    events := []
    restarts := 0
    submissions := [] }

/-- Iterated `_process_results` calls (one per `check` cycle), each draining
at most `MAX_LOOP_ITERATIONS` results. -/
def drainCalls : Nat → SState → SState
  | 0, s => s
  | c + 1, s => drainCalls c (drainLoop MAX_LOOP_ITERATIONS s).1

/-- One debounce cycle for target `n`: the in-flight entry recorded by a
previous `check` submission is present, the worker's result is the only
queued item, and `_process_results` drains it. -/
def feedStatus (i : Instance) (n : String) (s : SState) (st : St) : SState :=
  (drainLoop MAX_LOOP_ITERATIONS
    { s with resultsq := [RItem.ok st "" (some n) i],
             jobs_status := [(some n, 0)] }).1

end Svc

namespace Statsd

/-! ## Statsd UDP server (statsd/udp.py)

Python byte/unicode strings are embedded as `List Char`; the helpers model
the string operations the source uses (`split`, `strip`, `startswith`,
slicing with Python's clamping rules, `int()` / `float()` literal parsing and
the dict-of-strings fragment of `ast.literal_eval`).  All parse failures are
uncaught Python exceptions that propagate out of `submit_packets`, so they
all collapse to `none` / an error component here. -/

def isSpace (c : Char) : Bool :=
  c = ' ' || c = '\t' || c = '\n' || c = '\x0b' || c = '\x0c' || c = '\r'

/-- `str.strip()`. -/
def pyStrip (l : List Char) : List Char :=
  ((l.dropWhile isSpace).reverse.dropWhile isSpace).reverse

/-- `str.split(c)` (all occurrences). -/
def splitOnCharAux (c : Char) : List Char → List Char → List (List Char)
  | [], acc => [acc.reverse]
  | x :: t, acc =>
    if x = c then acc.reverse :: splitOnCharAux c t []
    else splitOnCharAux c t (x :: acc)

def splitOnChar (c : Char) (l : List Char) : List (List Char) :=
  splitOnCharAux c l []

/-- `str.split(c, 1)`: `none` when the separator does not occur (a 1-element
split), `some (before, after)` otherwise. -/
def splitOnce (c : Char) : List Char → List Char → Option (List Char × List Char)
  | [], _acc => none
  | x :: t, acc =>
    if x = c then some (acc.reverse, t) else splitOnce c t (x :: acc)

/-- All-digits parse (the core of Python `int(str)`). -/
def parseDigitsAux : List Char → Nat → Option Nat
  | [], acc => some acc
  | c :: t, acc =>
    if c.isDigit then parseDigitsAux t (acc * 10 + (c.toNat - 48)) else none

def parseDigits : List Char → Option Nat
  | [] => none
  | l => parseDigitsAux l 0

/-- Python `int(str)`: optional surrounding whitespace, optional sign,
non-empty digit run. -/
def pyParseInt (l : List Char) : Option Int :=
  match pyStrip l with
  | '+' :: t => (parseDigits t).map (fun n => (n : Int))
  | '-' :: t => (parseDigits t).map (fun n => -(n : Int))
  | t => (parseDigits t).map (fun n => (n : Int))

def isDigits (l : List Char) : Bool :=
  !l.isEmpty && l.all Char.isDigit

/-- Mantissa of a float literal: `digits[.digits?]`, `.digits` or `digits.`. -/
def isMant (l : List Char) : Bool :=
  match splitOnce '.' l [] with
  | some (a, b) => (isDigits a && (b.isEmpty || isDigits b)) || (a.isEmpty && isDigits b)
  | none => isDigits l

def isSignedDigits : List Char → Bool
  | '+' :: t => isDigits t
  | '-' :: t => isDigits t
  | t => isDigits t

def isSignedMant : List Char → Bool
  | '+' :: t => isMant t
  | '-' :: t => isMant t
  | t => isMant t

/-- Acceptance test of Python `float(str)` restricted to finite decimal and
scientific literals (the `inf` / `nan` spellings are outside the model; no
source path under verification reaches them). -/
def isFloatLit (l : List Char) : Bool :=
  let l := pyStrip l
  match splitOnce 'e' l [] with
  | some (m, ex) => isSignedMant m && isSignedDigits ex
  | none =>
    match splitOnce 'E' l [] with
    | some (m, ex) => isSignedMant m && isSignedDigits ex
    | none => isSignedMant l

/-- Value of Python `float(str)` as a rational, restricted to plain decimal
literals `[sign] digits [. digits]` (exponent forms are outside the model; no
source path under verification reaches them). -/
def parseDecimalRat (l : List Char) : Option ℚ :=
  let core : List Char → Option ℚ := fun m =>
    match splitOnce '.' m [] with
    | none => (parseDigits m).map (fun n => (n : ℚ))
    | some (a, b) =>
      let aN : Option Nat := if a.isEmpty then some 0 else parseDigits a
      let bN : Option Nat := if b.isEmpty then some 0 else parseDigits b
      match aN, bN with
      | some x, some y =>
        if a.isEmpty && b.isEmpty then none
        else some ((x : ℚ) + (y : ℚ) / ((10 : ℚ) ^ b.length))
      | _, _ => none
  match pyStrip l with
  | '+' :: t => core t
  | '-' :: t => (core t).map Neg.neg
  | t => core t

/-- Strings accepted by the dict fragment of `ast.literal_eval`: a Python
`dict` display whose keys and values are quoted string literals (no escape
sequences modeled).  Any other literal input makes the model fail, as the
malformed-dimension inputs under verification do in Python (`SyntaxError` /
`ValueError`); non-dict literals, which Python would accept and which no
statsd dimension path under verification produces, are outside the model. -/
def scanStr (q : Char) : List Char → List Char → Option (String × List Char)
  | [], _ => none
  | c :: t, acc =>
    if c = q then some (String.mk acc.reverse, t) else scanStr q t (c :: acc)

def parseStrLit : List Char → Option (String × List Char)
  | q :: t => if q = '\'' || q = '"' then scanStr q t [] else none
  | [] => none

def skipWs (l : List Char) : List Char := l.dropWhile isSpace

def parseDictEntries : Nat → List Char → List (String × String) →
    Option (List (String × String))
  | 0, _, _ => none
  | fuel + 1, l, acc =>
    match parseStrLit (skipWs l) with
    | none => none
    | some (k, rest) =>
      match skipWs rest with
      | ':' :: r2 =>
        match parseStrLit (skipWs r2) with
        | none => none
        | some (v, r3) =>
          match skipWs r3 with
          | ',' :: r4 => parseDictEntries fuel r4 (acc ++ [(k, v)])
          | '}' :: r5 => if (skipWs r5).isEmpty then some (acc ++ [(k, v)]) else none
          | _ => none
      | _ => none

def pyLiteralEvalDict (l : List Char) : Option (List (String × String)) :=
  match skipWs l with
  | '{' :: t =>
    match skipWs t with
    | '}' :: r => if (skipWs r).isEmpty then some [] else none
    | _ => parseDictEntries (t.length + 1) t []
  | _ => none

/-- A parsed metric value: `int` first, `float` fallback (raw literal kept),
and the raw string verbatim for type `s`. -/
inductive MValue where
  | ival (i : Int)
  | fval (raw : String)
  | sval (raw : String)
  deriving DecidableEq, Repr

/-- A sample rate: the Python int default `1`, or a parsed float. -/
inductive PyNum where
  | pint (i : Int)
  | prat (q : ℚ)
  deriving DecidableEq, Repr

/-- The `metric_class` table: `{'g': Gauge, 'c': Counter, 'h': Histogram,
'ms': Histogram, 's': Set, 'r': Rate}`; a missing key is a `KeyError`. -/
inductive MClass where
  | Gauge
  | Counter
  | Histogram
  | Set
  | Rate
  deriving DecidableEq, Repr

def metric_class : String → Option MClass
  | "g" => some MClass.Gauge
  | "c" => some MClass.Counter
  | "h" => some MClass.Histogram
  | "ms" => some MClass.Histogram
  | "s" => some MClass.Set
  | "r" => some MClass.Rate
  | _ => none

/-- The optional metadata scan of `_parse_metric_packet` over
`metadata[2:]`: `@` sets the sample rate (with the `assert 0 <= rate <= 1`),
`#` sets the dimensions via `ast.literal_eval`, an empty entry raises
`IndexError` at `m[0]`, anything else is ignored. -/
def parseExtras : List (List Char) → PyNum → List (String × String) →
    Option (PyNum × List (String × String))
  | [], sr, dims => some (sr, dims)
  | m :: t, sr, dims =>
    match m with
    | [] => none
    | c :: mtail =>
      if c = '@' then
        match parseDecimalRat mtail with
        | none => none
        | some q => if 0 ≤ q ∧ q ≤ 1 then parseExtras t (PyNum.prat q) dims else none
      else if c = '#' then
        match pyLiteralEvalDict mtail with
        | none => none
        | some d => parseExtras t sr d
      else parseExtras t sr dims

/-- `Server._parse_metric_packet`: split on the first `:`, split the metadata
on `|` (at least value and type required), parse the value (`s` keeps the raw
string; otherwise `int` first, `float` fallback, else error), then scan the
optional sample-rate / dimensions entries. -/
def parseMetricPacket (l : List Char) :
    Option (String × MValue × String × List (String × String) × PyNum) :=
  match splitOnce ':' l [] with
  | none => none
  | some (nameC, rest) =>
    match splitOnChar '|' rest with
    | raw :: mtypeC :: extras =>
      let name := String.mk nameC
      let mtype := String.mk mtypeC
      let value : Option MValue :=
        if mtype = "s" then some (MValue.sval (String.mk raw))
        else
          match pyParseInt raw with
          | some i => some (MValue.ival i)
          | none => if isFloatLit raw then some (MValue.fval (String.mk raw)) else none
      match value with
      | none => none
      | some v =>
        match parseExtras extras (PyNum.pint 1) [] with
        | none => none
        | some (sr, dims) => some (name, v, mtype, dims, sr)
    | _ => none

/-- A parsed event packet. -/
structure PEvent where
  title : String
  text : String
  alert_type : Option String := none
  aggregation_key : Option String := none
  source_type_name : Option String := none
  date_happened : Option Int := none
  priority : Option String := none
  hostname : Option String := none
  dimensions : Option (List String) := none
  deriving DecidableEq, Repr

/-- Python index clamping for a slice bound on a sequence of length `n`. -/
def pyIndex (n : Nat) (i : Int) : Nat :=
  if i < 0 then (i + n).toNat else min i.toNat n

/-- Python `s[a:b]`. -/
def pySlice (l : List Char) (a b : Int) : List Char :=
  (l.take (pyIndex l.length b)).drop (pyIndex l.length a)

/-- Python `s[a:]`. -/
def pySliceFrom (l : List Char) (a : Int) : List Char :=
  l.drop (pyIndex l.length a)

/-- `text.replace('\\n', '\n')`: left-to-right, non-overlapping. -/
def unescapeNl : List Char → List Char
  | [] => []
  | [c] => [c]
  | c1 :: c2 :: t =>
    if c1 = '\\' && c2 = 'n' then '\n' :: unescapeNl t
    else c1 :: unescapeNl (c2 :: t)

/-- Lexicographic (code-point) order on strings as Python `sorted` uses. -/
def lexLe : List Char → List Char → Bool
  | [], _ => true
  | _ :: _, [] => false
  | a :: as_, b :: bs =>
    if a = b then lexLe as_ bs else decide (a < b)

def insertSorted (x : List Char) : List (List Char) → List (List Char)
  | [] => [x]
  | y :: t => if lexLe x y then x :: y :: t else y :: insertSorted x t

def sortChunks : List (List Char) → List (List Char)
  | [] => []
  | x :: t => insertSorted x (sortChunks t)

/-- One metadata entry of an event packet (`meta.split('|')[1:]`): dispatch
on the first character; an empty entry raises `IndexError`, which the source
catches and re-raises as an unparseable-packet error; `d` re-parses an int
whose failure (`ValueError`) propagates. -/
def applyMeta (ev : PEvent) (m : List Char) : Option PEvent :=
  match m with
  | [] => none
  | c :: _ =>
    if c = 't' then some { ev with alert_type := some (String.mk (m.drop 2)) }
    else if c = 'k' then some { ev with aggregation_key := some (String.mk (m.drop 2)) }
    else if c = 's' then some { ev with source_type_name := some (String.mk (m.drop 2)) }
    else if c = 'd' then (pyParseInt (m.drop 2)).map
      (fun i => { ev with date_happened := some i })
    else if c = 'p' then some { ev with priority := some (String.mk (m.drop 2)) }
    else if c = 'h' then some { ev with hostname := some (String.mk (m.drop 2)) }
    else if c = '#' then
      some { ev with
             dimensions := some ((sortChunks (splitOnChar ',' (m.drop 1))).map String.mk) }
    else some ev

def applyMetas : List (List Char) → PEvent → Option PEvent
  | [], ev => some ev
  | m :: t, ev =>
    match applyMeta ev m with
    | none => none
    | some ev2 => applyMetas t ev2

/-- `Server._parse_event_packet`: `_e{titlelen,textlen}:title|text[|meta...]`.
The header is split on `,` (exactly two parts, else the tuple unpacking
raises), the two lengths are `int(name[3:])` and `int(name2[:-1])`, title and
text are Python slices of the metadata, `\\n` in the text is unescaped, and
the remaining `|`-separated metadata entries are dispatched on their first
character.  Any failure propagates as an exception. -/
def parseEventPacket (l : List Char) : Option PEvent :=
  match splitOnce ':' l [] with
  | none => none
  | some (name, metadata) =>
    match splitOnChar ',' name with
    | [p1, p2] =>
      match pyParseInt (p1.drop 3), pyParseInt (pySlice p2 0 (-1)) with
      | some tl, some txl =>
        let ev0 : PEvent :=
          { title := String.mk (pySlice metadata 0 tl)
            text := String.mk (unescapeNl (pySlice metadata (tl + 1) (tl + txl + 1))) }
        let meta := pySliceFrom metadata (tl + txl + 1)
        applyMetas ((splitOnChar '|' meta).drop 1) ev0
      | _, _ => none
    | _ => none

/-- One recorded `submit_metric` call on the Aggregator. -/
structure MSub where
  name : String
  value : MValue
  mclass : MClass
  dims : List (String × String)
  rate : PyNum
  deriving DecidableEq, Repr

/-- The Aggregator interface consumed by the server: the two diagnostic
counters and the recorded metric/event submissions. -/
structure AggState where
  count : Nat
  event_count : Nat
  metrics : List MSub
  events : List PEvent
  deriving DecidableEq, Repr

def startsWithE (p : List Char) : Bool :=
  match p with
  | '_' :: 'e' :: _ => true
  | _ => false

/-- `Server.submit_packets` over the newline-split packets: blank packets are
skipped; an `_e` packet is parsed as an event (`event_count` bumped after a
successful parse); otherwise `count` is bumped *before* the metric parse,
then the parsed metric is submitted under its `metric_class` (a missing type
is a `KeyError`).  The first propagating exception aborts the loop; state
mutated before it persists. -/
def submitGo : List (List Char) → AggState → AggState × Option String
  | [], agg => (agg, none)
  | p :: rest, agg =>
    if (pyStrip p).isEmpty then submitGo rest agg
    else if startsWithE p then
      match parseEventPacket p with
      | none => (agg, some "event parse error")
      | some ev =>
        submitGo rest
          { agg with event_count := agg.event_count + 1, events := agg.events ++ [ev] }
    else
      let agg1 := { agg with count := agg.count + 1 }
      match parseMetricPacket p with
      | none => (agg1, some "metric parse error")
      | some (name, v, mtype, dims, sr) =>
        match metric_class mtype with
        | none => (agg1, some "KeyError: metric type")
        | some mc =>
          submitGo rest
            { agg1 with metrics := agg1.metrics ++ [⟨name, v, mc, dims, sr⟩] }

def submitPackets (agg : AggState) (datagram : String) : AggState × Option String :=
  submitGo (splitOnChar '\n' datagram.data) agg

end Statsd

namespace Coll

/-! ## Collector driver (collector/checks/collector.py) -/

/-- Modelled from the spec: `monasca_agent.common.metrics.Measurement` is not
under src/; per the spec's data model a Measurement is
`{name, timestamp, value, dimensions, value_meta}` (timestamps and values
carried as integers here; the driver does no arithmetic on them). -/
structure Meas where
  name : String
  timestamp : Int
  value : Int
  dimensions : List (String × String)
  value_meta : Option (List (String × String))
  deriving DecidableEq, Repr

/-- Modelled from the spec: `util.Dimensions._set_dimensions` is not under
src/; per the spec's merge rule the caller-supplied mapping is the base and
the global default dimension set fills in any still-missing keys. -/
def setDimensions (defaults base : List (String × String)) :
    List (String × String) :=
  base ++ defaults.filter (fun p => (alookup base p.1).isNone)

/-- A configured check plugin as the driver sees it: `run()` either raises or
succeeds, and on success `get_metrics()` returns its measurement batch. -/
structure CheckPlugin where
  name : String
  runRaises : Bool
  metrics : List Meas
  deriving DecidableEq, Repr

/-- Collector state: the run counter, the stop flag, and the sequence of
payloads handed to `_emit` (each a per-check batch or the self-metrics
batch). -/
structure CollState where
  run_count : Nat
  continue_running : Bool
  emitted : List (List Meas)
  deriving DecidableEq, Repr

/-- `Collector._emit`: hands the payload to the emitter unless stopping;
emitter errors are caught inside `_emit` and never propagate. -/
def emit (payload : List Meas) (s : CollState) : CollState :=
  if s.continue_running then { s with emitted := s.emitted ++ [payload] } else s

/-- `Collector.run_checks_d`: run each plugin in sequence; a raising plugin
is caught and logged and the loop continues; a succeeding plugin's metrics
are emitted immediately (per-check emission) and counted.  An early stop
returns `None` (`none`). -/
def runChecksD : List CheckPlugin → Nat → CollState → CollState × Option Nat
  | [], acc, s => (s, some acc)
  | c :: rest, acc, s =>
    if s.continue_running = false then (s, none)
    else if c.runRaises then runChecksD rest acc s
    else runChecksD rest (acc + c.metrics.length) (emit c.metrics s)

/-- `Collector.collector_stats` measurements as built in `run()`: the thread
count and the collection duration, tagged with the fixed
`{component: monasca-agent, service: monitoring}` dimensions merged with the
global defaults (the two-entry dict is iterated in insertion order here). -/
def collectorStats (threadCount : Nat) (collectTime ts : Int)
    (defaults : List (String × String)) : List Meas :=
  [ { name := "monasca.thread_count", timestamp := ts, value := (threadCount : Int)
      dimensions := setDimensions defaults
        [("component", "monasca-agent"), ("service", "monitoring")]
      value_meta := none },
    { name := "monasca.collection_time_sec", timestamp := ts, value := collectTime
      dimensions := setDimensions defaults
        [("component", "monasca-agent"), ("service", "monitoring")]
      value_meta := none } ]

/-- `Collector.run`: bump the run counter, run the checks_d plugins, then
emit the collector-self-metrics batch once. -/
def collectorRun (checks : List CheckPlugin) (threadCount : Nat)
    (collectTime ts : Int) (defaults : List (String × String))
    (s : CollState) : CollState :=
  let s1 := { s with run_count := s.run_count + 1 }
  let s2 := (runChecksD checks 0 s1).1
  emit (collectorStats threadCount collectTime ts defaults) s2

end Coll

namespace Rep

/-! ## Reporter flush cycle (statsd/reporter.py) -/

def FLUSH_LOGGING_PERIOD : Nat := 70
def FLUSH_LOGGING_INITIAL : Nat := 10
def FLUSH_LOGGING_COUNT : Nat := 5

/-- A payload as handed to the emitter: either the raw metrics list (what
`Reporter.flush` passes to `emitter.http_emitter`) or a serialized JSON
string (what `Reporter.serialize_metrics` would produce). -/
inductive Payload where
  | raw (ms : List String)
  | serialized (s : String)
  deriving DecidableEq, Repr

/-- The Aggregator as the Reporter consumes it (metric/event buffers;
metrics kept abstract as atoms). -/
structure RAgg where
  metrics : List String
  events : List String
  deriving DecidableEq, Repr

/-- Modelled from the spec: the Aggregator's `flush` (not under src/) drains
and returns the buffered metrics. -/
def aggFlush (a : RAgg) : List String × RAgg :=
  (a.metrics, { a with metrics := [] })

/-- Modelled from the spec: the Aggregator's `flush_events` (not under src/)
drains and returns the buffered events. -/
def aggFlushEvents (a : RAgg) : List String × RAgg :=
  (a.events, { a with events := [] })

structure RepState where
  flush_count : Nat
  log_count : Nat
  agg : RAgg
  emitted : List Payload
  deriving DecidableEq, Repr

/-- `Reporter.serialize_metrics`: `json.dumps({"series": metrics})`. -/
def serializeMetrics (ms : List String) : Payload :=
  Payload.serialized
    ("\x7b\"series\": [" ++
      String.intercalate ", " (ms.map (fun m => "\"" ++ m ++ "\"")) ++ "]\x7d")

/-- `Reporter.flush`: bump the flush/log counters, drain the Aggregator's
metrics, reset the log counter on period boundaries, hand the *raw* metrics
list to `emitter.http_emitter` only when it is non-empty (an emitter error is
caught by the inner try/except and logged), then drain the events.  The whole
body sits in a try/except, so no exception escapes a cycle and the periodic
loop continues. -/
def reporterFlush (s : RepState) : RepState :=
  let s1 := { s with flush_count := s.flush_count + 1, log_count := s.log_count + 1 }
  let msAgg := aggFlush s1.agg
  let count := msAgg.1.length
  let s2 := { s1 with agg := msAgg.2 }
  let s3 := if s2.flush_count % FLUSH_LOGGING_PERIOD = 0
    then { s2 with log_count := 0 } else s2
  let s4 := if count ≠ 0
    then { s3 with emitted := s3.emitted ++ [Payload.raw msAgg.1] } else s3
  let esAgg := aggFlushEvents s4.agg
  { s4 with agg := esAgg.2 }

end Rep

/-! ## Helper lemmas -/

@[simp] theorem alookup_nil {κ ν : Type} [DecidableEq κ] (k : κ) :
    alookup ([] : List (κ × ν)) k = none := rfl

@[simp] theorem alookup_cons {κ ν : Type} [DecidableEq κ] (k k' : κ) (v : ν)
    (t : List (κ × ν)) :
    alookup ((k, v) :: t) k' = if k = k' then some v else alookup t k' := rfl

@[simp] theorem aset_nil {κ ν : Type} [DecidableEq κ] (k : κ) (v : ν) :
    aset ([] : List (κ × ν)) k v = [(k, v)] := rfl

@[simp] theorem alookup_aset_self {κ ν : Type} [DecidableEq κ]
    (l : List (κ × ν)) (k : κ) (v : ν) : alookup (aset l k v) k = some v := by
  induction l with
  | nil => simp [aset, alookup]
  | cons p t ih =>
    obtain ⟨k', v'⟩ := p
    by_cases h : k' = k <;> simp [aset, alookup, h, ih]

namespace Svc

lemma drainLoop_eq_succ (fuel : Nat) (s : SState) :
    drainLoop (fuel + 1) s =
      match s.resultsq with
      | [] => (s, none)
      | r :: rest =>
        let s1 := { s with resultsq := rest }
        match r with
        | RItem.failure =>
          let nf : Nat := s1.nb_failures + 1
          if (nf : Int) ≥ (s1.pool_size : Int) - 1 then
            drainLoop fuel (restartPool { s1 with nb_failures := 0 })
          else
            drainLoop fuel { s1 with nb_failures := nf }
        | RItem.ok st _msg name inst =>
          match handleNormal s1 st name inst with
          | (s2, none) => drainLoop fuel s2
          | (s2, some e) => (s2, some e) := rfl

lemma drainLoop_nil (fuel : Nat) (s : SState) (h : s.resultsq = []) :
    drainLoop fuel s = (s, none) := by
  cases fuel with
  | zero => rfl
  | succ k => rw [drainLoop_eq_succ, h]

lemma handleNormal_resultsq (s : SState) (st : St) (name : Option String)
    (i : Instance) : (handleNormal s st name i).1.resultsq = s.resultsq := by
  simp only [handleNormal]
  split <;> rfl

lemma handleNormal_snd_of_mem (s : SState) (st : St) (name : Option String)
    (i : Instance) (hj : (alookup s.jobs_status name).isSome = true) :
    (handleNormal s st name i).2 = none := by
  simp only [handleNormal, hj, if_true]

lemma drainLoop_singleton_ok (fuel : Nat) (s : SState) (st : St) (msg : String)
    (name : Option String) (inst : Instance)
    (h : s.resultsq = [RItem.ok st msg name inst])
    (hj : (alookup s.jobs_status name).isSome = true) :
    drainLoop (fuel + 1) s = handleNormal { s with resultsq := [] } st name inst := by
  rw [drainLoop_eq_succ, h]
  have h2 := handleNormal_snd_of_mem { s with resultsq := ([] : List RItem) } st name inst hj
  have h1 := handleNormal_resultsq { s with resultsq := ([] : List RItem) } st name inst
  rcases hh : handleNormal { s with resultsq := ([] : List RItem) } st name inst with ⟨s2, e2⟩
  rw [hh] at h1 h2
  simp only at h1 h2
  subst h2
  simp only [hh]
  rw [drainLoop_nil fuel s2 h1]

lemma handleNormal_statuses (s : SState) (st : St) (name : Option String)
    (i : Instance) :
    (handleNormal s st name i).1.statuses =
      aset s.statuses name
        (let hist1 := ((alookup s.statuses name).getD []) ++ [st]
         if (hist1.length : Int) > effWindow i.window then hist1.tail else hist1) := by
  simp only [handleNormal]
  split <;> rfl

lemma feedStatus_eq (i : Instance) (n : String) (s : SState) (st : St) :
    feedStatus i n s st =
      (handleNormal { s with resultsq := [], jobs_status := [(some n, 0)] }
        st (some n) i).1 := by
  unfold feedStatus
  rw [show MAX_LOOP_ITERATIONS = 999 + 1 from rfl]
  rw [drainLoop_singleton_ok 999 _ st "" (some n) i rfl (by simp [alookup])]

lemma drainFailuresTrigger (m : Nat) : ∀ (fuel : Nat) (s : SState),
    s.resultsq = List.replicate (m + 1) RItem.failure →
    (s.nb_failures : Int) + (m + 1) = (s.pool_size : Int) - 1 →
    m + 1 ≤ fuel →
    drainLoop fuel s =
      ({ s with resultsq := [], jobs_status := [], nb_failures := 0,
                pool_started := true, restarts := s.restarts + 1 }, none) := by
  induction m with
  | zero =>
    intro fuel s h hnb hfuel
    rw [show List.replicate (0 + 1) RItem.failure = [RItem.failure] from rfl] at h
    cases fuel with
    | zero => omega
    | succ f =>
      rw [drainLoop_eq_succ, h]
      simp only []
      split
      · rw [drainLoop_nil f _ rfl]
        rfl
      · omega
  | succ m ih =>
    intro fuel s h hnb hfuel
    rw [List.replicate_succ] at h
    cases fuel with
    | zero => omega
    | succ f =>
      rw [drainLoop_eq_succ, h]
      simp only []
      split
      · omega
      · rw [ih f { s with resultsq := List.replicate (m + 1) RItem.failure,
                          nb_failures := s.nb_failures + 1 }
            rfl (by push_cast; push_cast at hnb; omega) (by omega)]

lemma drainFailuresPartial (fuel : Nat) : ∀ (m : Nat) (s : SState),
    s.resultsq = List.replicate m RItem.failure →
    fuel < m →
    (s.nb_failures : Int) + fuel ≤ (s.pool_size : Int) - 2 →
    drainLoop fuel s =
      ({ s with resultsq := List.replicate (m - fuel) RItem.failure,
                nb_failures := s.nb_failures + fuel }, none) := by
  induction fuel with
  | zero =>
    intro m s h _ _
    show (s, none) = _
    rw [Nat.sub_zero, ← h, Nat.add_zero]
  | succ fuel ih =>
    intro m s h hm hnb
    obtain ⟨m', rfl⟩ : ∃ m', m = m' + 1 := ⟨m - 1, by omega⟩
    rw [List.replicate_succ] at h
    rw [drainLoop_eq_succ, h]
    simp only []
    split
    · omega
    · rw [ih m' { s with resultsq := List.replicate m' RItem.failure,
                         nb_failures := s.nb_failures + 1 }
        rfl (by omega) (by push_cast; push_cast at hnb; omega)]
      simp only [show m' + 1 - (fuel + 1) = m' - fuel from by omega,
        show s.nb_failures + 1 + fuel = s.nb_failures + (fuel + 1) from by omega]

lemma drainCalls_nilq (c : Nat) (s : SState) (h : s.resultsq = []) :
    drainCalls c s = s := by
  induction c with
  | zero => rfl
  | succ k ih =>
    show drainCalls k (drainLoop MAX_LOOP_ITERATIONS s).1 = s
    rw [drainLoop_nil _ _ h]
    exact ih

set_option maxRecDepth 100000 in
lemma drainCallsFailures : ∀ (c m : Nat) (s : SState),
    s.resultsq = List.replicate m RItem.failure →
    1 ≤ m →
    (s.nb_failures : Int) + m = (s.pool_size : Int) - 1 →
    m ≤ c * MAX_LOOP_ITERATIONS →
    drainCalls c s =
      { s with resultsq := [], jobs_status := [], nb_failures := 0,
               pool_started := true, restarts := s.restarts + 1 } := by
  intro c
  induction c with
  | zero =>
    intro m s _ hm _ hc
    rw [Nat.zero_mul] at hc
    omega
  | succ k ih =>
    intro m s h hm hnb hc
    show drainCalls k (drainLoop MAX_LOOP_ITERATIONS s).1 = _
    by_cases hsmall : m ≤ MAX_LOOP_ITERATIONS
    · obtain ⟨m', rfl⟩ : ∃ m', m = m' + 1 := ⟨m - 1, by omega⟩
      rw [drainFailuresTrigger m' MAX_LOOP_ITERATIONS s h hnb hsmall]
      exact drainCalls_nilq k _ rfl
    · have hpart := drainFailuresPartial MAX_LOOP_ITERATIONS m s h (by omega)
        (by omega)
      rw [hpart]
      apply ih (m - MAX_LOOP_ITERATIONS)
      · rfl
      · omega
      · push_cast at hnb ⊢
        omega
      · simp only [MAX_LOOP_ITERATIONS] at hc hsmall ⊢
        omega

lemma clean_no_stuck (now : Int) (s : SState)
    (h : ∀ p ∈ s.jobs_status, ¬(now - p.2 > s.timeout)) : clean now s = s := by
  unfold clean
  have key : ∀ l : List (Option String × Int),
      (∀ p ∈ l, ¬(now - p.2 > s.timeout)) →
      l.foldl (fun acc p => if now - p.2 > acc.timeout then restartPool acc else acc) s = s := by
    intro l
    induction l with
    | nil => intro _; rfl
    | cons q t ih =>
      intro hl
      rw [List.foldl_cons, if_neg (hl q (List.mem_cons_self q t))]
      exact ih (fun p hp => hl p (List.mem_cons_of_mem q hp))
  exact key s.jobs_status h

end Svc

/-! ## Claim theorems -/

/-- C1: with instance config `window=3, threshold=2`, from an empty status
history and default notified state UP, draining results UP, DOWN, DOWN emits
exactly one down-transition event and sets the logical (notified) state to
DOWN; one further UP (window now [DOWN, DOWN, UP]) emits no new event and the
state stays DOWN; a second further UP (window [DOWN, UP, UP]) emits exactly
one up-transition event and sets the state to UP. -/
theorem C1_debounce_window3_threshold2 (n : String) :
    let i : Svc.Instance := ⟨some n, 3, 2⟩
    let s3 := List.foldl (Svc.feedStatus i n) Svc.initState
      [Svc.St.UP, Svc.St.DOWN, Svc.St.DOWN]
    let s4 := Svc.feedStatus i n s3 Svc.St.UP
    let s5 := Svc.feedStatus i n s4 Svc.St.UP
    (s3.events = [Svc.St.DOWN] ∧ alookup s3.notified (some n) = some Svc.St.DOWN) ∧
    (s4.events = [Svc.St.DOWN] ∧ alookup s4.notified (some n) = some Svc.St.DOWN ∧
      alookup s4.statuses (some n) = some [Svc.St.DOWN, Svc.St.DOWN, Svc.St.UP]) ∧
    (s5.events = [Svc.St.DOWN, Svc.St.UP] ∧
      alookup s5.notified (some n) = some Svc.St.UP ∧
      alookup s5.statuses (some n) = some [Svc.St.DOWN, Svc.St.UP, Svc.St.UP]) := by
  simp only [List.foldl, Svc.feedStatus_eq]
  norm_num [Svc.handleNormal, Svc.effWindow, Svc.countDown, Svc.initState,
    alookup, aset, aerase]
  decide

/-- C4: draining FAILURE sentinels increments the failure counter once per
FAILURE while it stays below `pool_size - 1`; and for `pool_size ≥ 2`,
injecting `pool_size - 1` consecutive FAILURE results triggers exactly one
pool restart (which also clears the in-flight bookkeeping and installs a
fresh result queue), skips further processing of the triggering result, and
leaves the counter at 0 — stated over enough `_process_results` calls to
drain them all, since one call drains at most `MAX_LOOP_ITERATIONS`
results. -/
theorem C4_failure_circuit_breaker (p : Nat) (hp : 2 ≤ p) :
    (∀ (fuel : Nat) (s : Svc.SState), 1 ≤ fuel →
      s.resultsq = [Svc.RItem.failure] →
      (s.nb_failures : Int) + 1 < (s.pool_size : Int) - 1 →
      Svc.drainLoop fuel s =
        ({ s with resultsq := [], nb_failures := s.nb_failures + 1 }, none)) ∧
    (∀ (c : Nat) (s : Svc.SState), s.pool_size = p → s.nb_failures = 0 →
      s.resultsq = List.replicate (p - 1) Svc.RItem.failure →
      p - 1 ≤ c * Svc.MAX_LOOP_ITERATIONS →
      Svc.drainCalls c s =
        { s with resultsq := [], jobs_status := [], nb_failures := 0,
                 pool_started := true, restarts := s.restarts + 1 }) := by
  constructor
  · intro fuel s hfuel h hlt
    cases fuel with
    | zero => omega
    | succ f =>
      rw [Svc.drainLoop_eq_succ, h]
      simp only []
      split
      · omega
      · rw [Svc.drainLoop_nil f _ rfl]
  · intro c s hps hnb hq hc
    exact Svc.drainCallsFailures c (p - 1) s hq (by omega)
      (by rw [hps, hnb]; push_cast; omega) hc

/-- Witness for C4 with `pool_size = 3`: one FAILURE bumps the counter of a
size-6 pool from 0 to 1 without restart, and two consecutive FAILUREs on a
size-3 pool trigger exactly one restart and reset the counter. -/
theorem C4_failure_circuit_breaker_witness :
    Svc.drainLoop 1000 { Svc.initState with resultsq := [Svc.RItem.failure] } =
      ({ Svc.initState with resultsq := [], nb_failures := 1 }, none) ∧
    Svc.drainCalls 1
        { Svc.initState with pool_size := 3
                             resultsq := (List.replicate 2 Svc.RItem.failure) } =
      { Svc.initState with pool_size := 3, resultsq := [], jobs_status := [],
                           nb_failures := 0, pool_started := true,
                           restarts := 1 } := by
  constructor
  · exact (C4_failure_circuit_breaker 3 (by decide)).1 1000
      { Svc.initState with resultsq := [Svc.RItem.failure] }
      (by decide) rfl (by decide)
  · exact (C4_failure_circuit_breaker 3 (by decide)).2 1
      { Svc.initState with pool_size := 3
                           resultsq := (List.replicate 2 Svc.RItem.failure) }
      rfl rfl rfl (by decide)

/-- C8: the per-target status history is a FIFO sliding window: the effective
window never exceeds 256 (any configured window above 256, e.g. 300, is capped
to 256), processing a result keeps the history length within the effective
window, and when the appended status would overflow the window the oldest
entry is evicted first. -/
theorem C8_window_cap_and_fifo :
    (∀ w : Int, Svc.effWindow w ≤ 256) ∧
    (∀ w : Int, w > 256 → Svc.effWindow w = 256) ∧
    (∀ (s : Svc.SState) (st : Svc.St) (k : Option String) (i : Svc.Instance),
      ((((alookup s.statuses k).getD []).length : Int) ≤ Svc.effWindow i.window →
        (((alookup (Svc.handleNormal s st k i).1.statuses k).getD []).length : Int) ≤
          Svc.effWindow i.window) ∧
      ((alookup s.statuses k).getD [] ≠ [] →
        (((alookup s.statuses k).getD []).length : Int) + 1 > Svc.effWindow i.window →
        (alookup (Svc.handleNormal s st k i).1.statuses k).getD [] =
          ((alookup s.statuses k).getD []).tail ++ [st]) ∧
      ((((alookup s.statuses k).getD []).length : Int) + 1 ≤ Svc.effWindow i.window →
        (alookup (Svc.handleNormal s st k i).1.statuses k).getD [] =
          (alookup s.statuses k).getD [] ++ [st])) := by
  refine ⟨fun w => ?_, fun w hw => ?_, fun s st k i => ?_⟩
  · unfold Svc.effWindow
    split <;> omega
  · simp [Svc.effWindow, hw]
  · rw [Svc.handleNormal_statuses, alookup_aset_self]
    simp only [Option.getD_some]
    generalize (alookup s.statuses k).getD [] = old
    by_cases hpop : ((old ++ [st]).length : Int) > Svc.effWindow i.window
    · simp only [hpop, if_true]
      have hlen : ((old ++ [st]).length : Int) = old.length + 1 := by
        simp [List.length_append]
      refine ⟨?_, ?_, ?_⟩
      · intro hle
        cases old with
        | nil => simpa using hle
        | cons a t =>
          simp only [List.length_cons] at hle
          simp only [List.cons_append, List.tail_cons, List.length_append,
            List.length_cons, List.length_nil]
          push_cast
          push_cast at hle
          omega
      · intro hne _
        cases old with
        | nil => exact absurd rfl hne
        | cons a t => simp
      · intro hle
        exfalso
        rw [hlen] at hpop
        omega
    · simp only [hpop, if_false]
      have hlen : ((old ++ [st]).length : Int) = old.length + 1 := by
        simp [List.length_append]
      refine ⟨?_, ?_, ?_⟩
      · intro _
        rw [hlen] at hpop
        simp only [List.length_append, List.length_cons, List.length_nil]
        push_cast
        omega
      · intro _ hgt
        exfalso
        rw [hlen] at hpop
        omega
      · intro _
        trivial

/-- C3 counterexample: with the live-thread count at 201 and a result
sitting in the result queue, `check` fails with the thread-ceiling error
*without* draining the queue, while the claimed order (drain, then
stuck-scan, then the thread-ceiling failure) would have drained it: the two
computations differ at this concrete input. -/
theorem C3_thread_ceiling_first_counterexample :
    Svc.check 201 0 ⟨some "t", 1, 1⟩
        { Svc.initState with resultsq := [Svc.RItem.failure] } ≠
      Svc.checkSpecOrder 201 0 ⟨some "t", 1, 1⟩
        { Svc.initState with resultsq := [Svc.RItem.failure] } := by
  decide

/-- C3 (amended): the thread-ceiling test runs *first*: when the live-thread
count exceeds 200, `check` raises immediately and performs neither the drain
nor the stuck-scan nor a submission; when the count is within the ceiling,
the call proceeds exactly in the claimed order — drain up to 1000 results,
scan in-flight jobs for ones exceeding the timeout (restarting the pool per
stuck job), then submit for `instance.name` only if that name has no
in-flight job, else log and skip. -/
theorem C3_check_step_order (threads : Nat) (now : Int) (inst : Svc.Instance)
    (s : Svc.SState) :
    (threads ≤ Svc.MAX_ALLOWED_THREADS →
      Svc.check threads now inst s = Svc.checkSpecOrder threads now inst s) ∧
    (threads > Svc.MAX_ALLOWED_THREADS →
      Svc.check threads now inst s =
        ((if s.pool_started then s else Svc.startPool s),
          some "Thread number exceeds maximum. Skipping this check.")) := by
  constructor
  · intro h
    have hnt : ¬threads > Svc.MAX_ALLOWED_THREADS := by omega
    unfold Svc.check Svc.checkSpecOrder
    simp only [if_neg hnt]
  · intro h
    unfold Svc.check
    simp only [if_pos h]

/-- Witness for C3 at concrete inputs: with 100 live threads `check` agrees
with the claimed drain-then-scan-then-submit order, and with 201 live
threads it fails with the ceiling error right away. -/
theorem C3_check_step_order_witness :
    Svc.check 100 0 ⟨some "t", 1, 1⟩ Svc.initState =
      Svc.checkSpecOrder 100 0 ⟨some "t", 1, 1⟩ Svc.initState ∧
    Svc.check 201 0 ⟨some "t", 1, 1⟩ Svc.initState =
      (Svc.initState, some "Thread number exceeds maximum. Skipping this check.") := by
  constructor
  · exact (C3_check_step_order 100 0 ⟨some "t", 1, 1⟩ Svc.initState).1 (by decide)
  · exact ((C3_check_step_order 201 0 ⟨some "t", 1, 1⟩ Svc.initState).2
      (by decide)).trans (by decide)

/-- C5: if `check(instance)` is called while the instance's name already has
an in-flight job whose result has not been drained (nothing queued for it),
no job is stuck and the thread ceiling is not exceeded, then the call is a
complete no-op besides logging: it submits nothing and returns the scheduler
state unchanged. -/
theorem C5_no_second_job_while_inflight (threads : Nat) (now : Int)
    (n : String) (inst : Svc.Instance) (s : Svc.SState)
    (hpool : s.pool_started = true)
    (hthreads : threads ≤ Svc.MAX_ALLOWED_THREADS)
    (hname : inst.name = some n)
    (hjob : (alookup s.jobs_status (some n)).isSome = true)
    (hq : s.resultsq = [])
    (hstuck : ∀ p ∈ s.jobs_status, ¬(now - p.2 > s.timeout)) :
    Svc.check threads now inst s = (s, none) := by
  have hnt : ¬threads > Svc.MAX_ALLOWED_THREADS := by omega
  unfold Svc.check
  simp only [hpool, if_true, if_neg hnt]
  rw [Svc.drainLoop_nil Svc.MAX_LOOP_ITERATIONS s hq]
  simp only []
  rw [hname]
  simp only [Svc.clean_no_stuck now s hstuck, hjob, if_true]

/-- Witness for C5: with target `t` in flight, an empty result queue and a
fresh submission time, a second `check` call for `t` returns the state
unchanged and raises nothing. -/
theorem C5_no_second_job_while_inflight_witness :
    Svc.check 10 0 ⟨some "t", 1, 1⟩
        { Svc.initState with jobs_status := [(some "t", 0)] } =
      ({ Svc.initState with jobs_status := [(some "t", 0)] }, none) := by
  exact C5_no_second_job_while_inflight 10 0 "t" ⟨some "t", 1, 1⟩
    { Svc.initState with jobs_status := [(some "t", 0)] }
    rfl (by decide) rfl (by decide) rfl
    (by intro p hp; rw [List.mem_singleton] at hp; subst hp; decide)

/-- C6 counterexample: when `_check` returns the falsy value `None` — a
non-2-tuple return — with the job's in-flight entry present, `_process`
enqueues nothing at all (and silently clears the in-flight entry), while the
claim demands a FAILURE sentinel on the result queue. -/
theorem C6_falsy_return_counterexample :
    Svc.processJob [(some "t", 0)] [] ⟨some "t", 1, 1⟩ Svc.CheckOutcome.retNone =
      ([], []) := by
  decide

/-- C6 (amended): for every job executed by a pooled worker: if `_check`
raises (including the no-callback base class) or returns a truthy non-2-tuple
value, the FAILURE sentinel tuple is enqueued; a valid 2-tuple
`(status, message)` is enqueued as `(status, message, name, instance)`; but a
falsy return (`None`) enqueues nothing — it clears the in-flight entry when
present (and only when that entry is absent does the resulting `KeyError`
produce a FAILURE sentinel). -/
theorem C6_job_result_enqueueing (jobs : List (Option String × Int))
    (q : List Svc.RItem) (inst : Svc.Instance) (st : Svc.St) (msg : String) :
    Svc.processJob jobs q inst Svc.CheckOutcome.raises =
      (jobs, q ++ [Svc.RItem.failure]) ∧
    Svc.processJob jobs q inst Svc.CheckOutcome.retInvalid =
      (jobs, q ++ [Svc.RItem.failure]) ∧
    Svc.processJob jobs q inst (Svc.CheckOutcome.retPair st msg) =
      (jobs, q ++ [Svc.RItem.ok st msg inst.name inst]) ∧
    ((alookup jobs inst.name).isSome = true →
      Svc.processJob jobs q inst Svc.CheckOutcome.retNone =
        (aerase jobs inst.name, q)) ∧
    ((alookup jobs inst.name).isSome = false →
      Svc.processJob jobs q inst Svc.CheckOutcome.retNone =
        (jobs, q ++ [Svc.RItem.failure])) := by
  refine ⟨rfl, rfl, rfl, fun h => ?_, fun h => ?_⟩ <;>
    simp [Svc.processJob, h]

/-- Witness for C6: with target `t` in flight a falsy return clears the
entry and enqueues nothing; with no in-flight entry the `KeyError` path
enqueues the FAILURE sentinel. -/
theorem C6_job_result_enqueueing_witness :
    Svc.processJob [(some "t", 5)] [] ⟨some "t", 1, 1⟩ Svc.CheckOutcome.retNone =
      ([], []) ∧
    Svc.processJob [] [] ⟨some "t", 1, 1⟩ Svc.CheckOutcome.retNone =
      ([], [Svc.RItem.failure]) := by
  constructor
  · exact ((C6_job_result_enqueueing [(some "t", 5)] [] ⟨some "t", 1, 1⟩
      Svc.St.UP "").2.2.2.1 (by decide)).trans (by decide)
  · exact ((C6_job_result_enqueueing [] [] ⟨some "t", 1, 1⟩
      Svc.St.UP "").2.2.2.2 (by decide)).trans (by decide)

/-- C2 counterexample: for the datagram `page.views:42|c|#env:prod` as
claimed, `submit_packets` raises (dimensions go through `ast.literal_eval`,
and `env:prod` is not a Python literal) and no metric is submitted to the
Aggregator, contradicting the claimed single counter submission. -/
theorem C2_counter_packet_counterexample :
    (Statsd.submitPackets ⟨0, 0, [], []⟩ "page.views:42|c|#env:prod").1.metrics = [] ∧
    (Statsd.submitPackets ⟨0, 0, [], []⟩ "page.views:42|c|#env:prod").2.isSome = true := by
  decide

/-- C2 (amended): the dimensions section of the wire grammar is a Python
dict literal, not `dim:val` pairs.  For the single UDP datagram
`page.views:42|c|#{'env': 'prod'}`, `submit_packets` causes exactly one
Aggregator submission: a counter metric named `page.views`, integer value
42, dimensions {env: prod}, and the default sample rate 1 (a Python int). -/
theorem C2_counter_packet_dict_literal :
    Statsd.submitPackets ⟨0, 0, [], []⟩ "page.views:42|c|#\x7b'env': 'prod'\x7d" =
      (⟨1, 0,
        [⟨"page.views", Statsd.MValue.ival 42, Statsd.MClass.Counter,
          [("env", "prod")], Statsd.PyNum.pint 1⟩], []⟩, none) := by
  decide

/-- C7 counterexample: in the datagram `a:1|c\nbad\nb:2|c` the middle packet
fails to parse; the packet after it is NOT parsed and submitted (only one
metric reaches the Aggregator), contradicting the claim that the remaining
packets of the datagram are still processed. -/
theorem C7_parse_error_counterexample :
    (Statsd.submitPackets ⟨0, 0, [], []⟩ "a:1|c\nbad\nb:2|c").1.metrics.length = 1 ∧
    (Statsd.submitPackets ⟨0, 0, [], []⟩ "a:1|c\nbad\nb:2|c").2.isSome = true := by
  decide

/-- C7 (amended): when a packet inside a multi-packet datagram fails to
parse, `submit_packets` does not silently succeed — the exception propagates
(the receive loop in `start` catches and logs it) — packets before the
failing one are parsed and submitted, blank packets are skipped, but the
packets after the failing one in the same datagram are discarded: the batch
loop stops at the first error, retaining the submissions made so far. -/
theorem C7_parse_error_stops_batch :
    (∀ (ps qs : List (List Char)) (agg : Statsd.AggState),
      Statsd.submitGo (ps ++ qs) agg =
        match Statsd.submitGo ps agg with
        | (a1, none) => Statsd.submitGo qs a1
        | (a1, some e) => (a1, some e)) ∧
    Statsd.submitPackets ⟨0, 0, [], []⟩ "a:1|c\n\nbad\nb:2|c" =
      (⟨2, 0, [⟨"a", Statsd.MValue.ival 1, Statsd.MClass.Counter, [],
        Statsd.PyNum.pint 1⟩], []⟩, some "metric parse error") := by
  constructor
  · intro ps qs agg
    induction ps generalizing agg with
    | nil => rfl
    | cons p t ih =>
      simp only [List.cons_append, Statsd.submitGo]
      split
      · exact ih _
      · split
        · cases hev : Statsd.parseEventPacket p <;> simp [hev, ih]
        · cases hm : Statsd.parseMetricPacket p with
          | none => simp [hm]
          | some r =>
            obtain ⟨name, v, mtype, dims, sr⟩ := r
            cases hc : Statsd.metric_class mtype <;> simp [hm, hc, ih]
  · decide

/-- C9: in a Collector run over two configured plugins of which one raises
during `run()`, the exception is caught and does not abort the remaining
plugin: the surviving plugin's metrics are emitted (per-check, immediately
after that check and before the self-metrics), and the collector-self-metrics
batch (thread count and collection duration, tagged with the fixed
component/service dimensions) is emitted exactly once for the run — this
holds with the raising plugin in either position. -/
theorem C9_plugin_isolation (p q : Coll.CheckPlugin) (tc : Nat) (ct ts : Int)
    (defaults : List (String × String)) (s : Coll.CollState)
    (hs : s.continue_running = true)
    (hp : p.runRaises = true) (hq : q.runRaises = false) :
    Coll.collectorRun [p, q] tc ct ts defaults s =
      { s with run_count := s.run_count + 1,
               emitted := s.emitted ++
                 [q.metrics, Coll.collectorStats tc ct ts defaults] } ∧
    Coll.collectorRun [q, p] tc ct ts defaults s =
      { s with run_count := s.run_count + 1,
               emitted := s.emitted ++
                 [q.metrics, Coll.collectorStats tc ct ts defaults] } ∧
    (∀ m ∈ Coll.collectorStats tc ct ts defaults,
      alookup m.dimensions "component" = some "monasca-agent" ∧
      alookup m.dimensions "service" = some "monitoring") := by
  refine ⟨?_, ?_, ?_⟩
  · simp [Coll.collectorRun, Coll.runChecksD, Coll.emit, hs, hp, hq]
  · simp [Coll.collectorRun, Coll.runChecksD, Coll.emit, hs, hp, hq]
  · intro m hm
    simp only [Coll.collectorStats, List.mem_cons, List.not_mem_nil, or_false] at hm
    rcases hm with rfl | rfl <;> simp [Coll.setDimensions, alookup]

/-- Witness for C9: a raising plugin followed by a surviving one; the run
emits the survivor's batch and then the self-metrics batch, once each. -/
theorem C9_plugin_isolation_witness :
    Coll.collectorRun
        [⟨"bad", true, [⟨"x", 0, 0, [], none⟩]⟩, ⟨"good", false, [⟨"m2", 0, 1, [], none⟩]⟩]
        7 3 0 [("zone", "z")] ⟨0, true, []⟩ =
      { run_count := 1, continue_running := true,
        emitted := [[⟨"m2", 0, 1, [], none⟩], Coll.collectorStats 7 3 0 [("zone", "z")]] } := by
  exact ((C9_plugin_isolation ⟨"bad", true, [⟨"x", 0, 0, [], none⟩]⟩
    ⟨"good", false, [⟨"m2", 0, 1, [], none⟩]⟩ 7 3 0 [("zone", "z")]
    ⟨0, true, []⟩ rfl rfl rfl).1).trans (by decide)

/-- C10 counterexample: a flush cycle over one buffered metric hands the
*raw* metrics list to the emitter — not the `serialize_metrics` JSON envelope
(the two payloads differ) — and a cycle over an empty metrics buffer hands
nothing to the emitter at all, contradicting the claim that each cycle hands
the serialized payload to the emitter. -/
theorem C10_raw_payload_counterexample :
    (Rep.reporterFlush ⟨0, 0, ⟨["m"], []⟩, []⟩).emitted = [Rep.Payload.raw ["m"]] ∧
    Rep.Payload.raw ["m"] ≠ Rep.serializeMetrics ["m"] ∧
    (Rep.reporterFlush ⟨0, 0, ⟨[], ["e"]⟩, []⟩).emitted = [] := by
  decide

/-- C10 (amended): each Reporter flush cycle calls the Aggregator's `flush`
and `flush_events` (both buffers are drained), increments the flush counter,
and — only when at least one metric was flushed — hands the raw metrics list
to `emitter.http_emitter`; `serialize_metrics`, which builds the
`{"series": [...]}` envelope, is not invoked on this path.  The cycle is
wrapped in try/except, so it always completes and the periodic loop
continues. -/
theorem C10_flush_cycle (s : Rep.RepState) :
    (Rep.reporterFlush s).agg.metrics = [] ∧
    (Rep.reporterFlush s).agg.events = [] ∧
    (Rep.reporterFlush s).flush_count = s.flush_count + 1 ∧
    (Rep.reporterFlush s).emitted =
      s.emitted ++ (if s.agg.metrics.length ≠ 0
        then [Rep.Payload.raw s.agg.metrics] else []) := by
  unfold Rep.reporterFlush Rep.aggFlush Rep.aggFlushEvents
  simp only []
  split_ifs <;> simp

/-- Witness for C8 at concrete inputs: the configured window 300 is capped to
256, and with window 2 a full history [UP, DOWN] receiving DOWN evicts the
oldest entry, giving [DOWN, DOWN]. -/
theorem C8_window_cap_and_fifo_witness :
    Svc.effWindow 300 = 256 ∧
    (alookup (Svc.handleNormal
        { Svc.initState with statuses := [(some "t", [Svc.St.UP, Svc.St.DOWN])] }
        Svc.St.DOWN (some "t") ⟨some "t", 2, 1⟩).1.statuses (some "t")).getD [] =
      [Svc.St.DOWN, Svc.St.DOWN] := by
  constructor
  · exact (C8_window_cap_and_fifo.2.1 300 (by norm_num))
  · have h := (C8_window_cap_and_fifo.2.2
      { Svc.initState with statuses := [(some "t", [Svc.St.UP, Svc.St.DOWN])] }
      Svc.St.DOWN (some "t") ⟨some "t", 2, 1⟩).2.1
    rw [h (by decide) (by decide)]
    decide

end Monasca
